import Mathlib

/-!
Shallow embedding of the recommendation scoring and ranking engine of
`fastapi_service/core/ai_agents.py` (class `RecommendationEngine` and its
helpers), together with theorems settling the claims about it.

Python floats are modelled as `ℚ` (the constants involved are exact
decimals), Python ints as `ℤ`, Python strings as `String` (lowercasing and
splitting are modelled at the `List Char` level).  The external
collaborators (the sentence-transformer `encode`, sklearn
`cosine_similarity`, and the LLM text generation used for reasoning) are
opaque pluggable functions gathered in a `Collab` structure; fallible calls
return `Except Unit _`, mirroring Python exceptions.
-/

deriving instance DecidableEq for Except

namespace Careerate

/-- `UserContext` dataclass (ai_agents.py lines 36-45).  The two opaque
dict fields are modelled as association lists; the engine never inspects
them. -/
structure UserContext where
  user_id : String
  activity_patterns : List (String × String)
  skill_level : String
  preferences : List (String × String)
  goals : List String
  work_domain : String
  tools_used : List String
  productivity_score : ℚ
deriving DecidableEq, Repr

/-- `AITool` dataclass (ai_agents.py lines 47-58). -/
structure AITool where
  id : String
  name : String
  category : String
  description : String
  capabilities : List String
  pricing_model : String
  difficulty_level : String
  integration_complexity : ℤ
  user_rating : ℚ
  use_cases : List String
deriving DecidableEq, Repr

/-- `Recommendation` dataclass (ai_agents.py lines 60-68). -/
structure Recommendation where
  tool_id : String
  relevance_score : ℚ
  confidence : ℚ
  reasoning : String
  implementation_complexity : ℤ
  expected_impact : String
  learning_time_hours : ℤ
deriving DecidableEq, Repr

/-- The `pattern_insights` dict produced upstream; the engine only reads the
`skill_gaps` key (`pattern_insights.get('skill_gaps')`). `none` models an
absent key. -/
structure PatternInsights where
  skill_gaps : Option (List String)
deriving DecidableEq, Repr

/-- The external collaborators of the engine: the embedding model's
`encode`, sklearn's `cosine_similarity` (restricted to single vectors), and
the LLM text generation used by `_generate_reasoning`.  `Except Unit`
models a call that may raise. -/
structure Collab where
  encode : String → Except Unit (List ℚ)
  cosine : List ℚ → List ℚ → ℚ
  generate : String → Except Unit String

/-- A collaborator assembled from total (never-raising) functions. -/
def Collab.ofTotal (f : String → List ℚ) (sim : List ℚ → List ℚ → ℚ)
    (g : String → String) : Collab :=
  { encode := fun s => .ok (f s), cosine := sim, generate := fun s => .ok (g s) }

/-! ### String helpers mirroring the Python string operations used -/

/-- Python `str.lower()` on a string, producing the character list. -/
def pyLower (s : String) : List Char :=
  s.toList.map Char.toLower

/-- Python `str.split()` with no argument: split on whitespace runs,
dropping empty chunks. -/
def pySplit (l : List Char) : List (List Char) :=
  (l.splitOnP (fun c => c.isWhitespace)).filter (fun t => t ≠ [])

/-- Whether `needle` occurs as a contiguous substring of `hay`
(Python `needle in hay` on strings). -/
def occursIn (needle hay : List Char) : Bool :=
  decide (needle <:+: hay)

/-! ### The heuristic scorers (RecommendationEngine) -/

/-- `skill_levels.get(s, default)` for the dict
beginner 1, intermediate 2, advanced 3 (ai_agents.py line 357). -/
def skill_levels_get (s : String) (default : ℤ) : ℤ :=
  if s = "beginner" then 1
  else if s = "intermediate" then 2
  else if s = "advanced" then 3
  else default

/-- `_calculate_skill_match` (ai_agents.py lines 355-369): prefer tools one
level above the user. -/
def _calculate_skill_match (tool : AITool) (user_context : UserContext) : ℚ :=
  let user_level := skill_levels_get user_context.skill_level 1
  let tool_level := skill_levels_get tool.difficulty_level 2
  if tool_level = user_level + 1 then 1
  else if tool_level = user_level then 4/5
  else if tool_level = user_level - 1 then 3/5
  else 3/10

/-- `_calculate_domain_relevance` (ai_agents.py lines 371-378): keyword
overlap between `work_domain` tokens and the tool's category and use
cases. -/
def _calculate_domain_relevance (tool : AITool) (user_context : UserContext) : ℚ :=
  let domain_keywords := pySplit (pyLower user_context.work_domain)
  let tool_text := pyLower (tool.category ++ " " ++ String.intercalate " " tool.use_cases)
  let hits : ℕ := (domain_keywords.filter (fun k => occursIn k tool_text)).length
  if domain_keywords ≠ [] then
    min ((hits : ℚ) / (domain_keywords.length : ℚ)) 1
  else 1/2

/-- `_calculate_tool_compatibility` (ai_agents.py lines 380-389): MVP
placeholder, always 0.7. -/
def _calculate_tool_compatibility (tool : AITool) (user_context : UserContext) : ℚ :=
  7/10

/-- `skill_adjustment.get(s, 0)` (ai_agents.py lines 429-435). -/
def skill_adjustment_get (s : String) : ℤ :=
  if s = "beginner" then 1
  else if s = "intermediate" then 0
  else if s = "advanced" then -1
  else 0

/-- `_calculate_implementation_complexity` (ai_agents.py lines 424-436):
base integration complexity adjusted by skill, clamped into [1,5]. -/
def _calculate_implementation_complexity (tool : AITool) (user_context : UserContext) : ℤ :=
  let base_complexity := tool.integration_complexity
  let adjusted_complexity := base_complexity + skill_adjustment_get user_context.skill_level
  max 1 (min 5 adjusted_complexity)

/-- `_predict_impact` (ai_agents.py lines 438-448): three-tier heuristic on
productivity score and tool rating. -/
def _predict_impact (tool : AITool) (user_context : UserContext) : String :=
  if user_context.productivity_score < 3/5 ∧ tool.user_rating > 9/2 then "High"
  else if user_context.productivity_score < 4/5 then "Medium"
  else "Low"

/-- `base_time.get(s, 6)` (ai_agents.py lines 452-456, 464). -/
def base_time_get (s : String) : ℚ :=
  if s = "beginner" then 8
  else if s = "intermediate" then 4
  else if s = "advanced" then 2
  else 6

/-- `difficulty_multiplier.get(s, 1.5)` (ai_agents.py lines 458-462, 465). -/
def difficulty_multiplier_get (s : String) : ℚ :=
  if s = "beginner" then 1
  else if s = "intermediate" then 3/2
  else if s = "advanced" then 2
  else 3/2

/-- `_estimate_learning_time` (ai_agents.py lines 450-467):
`int(base * multiplier)`; both factors are non-negative so Python's
truncation toward zero is the floor. -/
def _estimate_learning_time (tool : AITool) (user_context : UserContext) : ℤ :=
  ⌊base_time_get user_context.skill_level * difficulty_multiplier_get tool.difficulty_level⌋

/-! ### Profile strings and the relevance aggregator -/

/-- `_create_user_profile` (ai_agents.py lines 306-319).  The
`skill_gaps` part is appended only when `pattern_insights.get('skill_gaps')`
is truthy, i.e. present and non-empty. -/
def _create_user_profile (user_context : UserContext) (pattern_insights : PatternInsights) : String :=
  let profile_parts :=
    ["User skill level: " ++ user_context.skill_level,
     "Work domain: " ++ user_context.work_domain,
     "Current tools: " ++ String.intercalate ", " user_context.tools_used,
     "Goals: " ++ String.intercalate ", " user_context.goals,
     "Productivity score: " ++ toString user_context.productivity_score]
  let profile_parts :=
    match pattern_insights.skill_gaps with
    | some gaps => if gaps ≠ [] then profile_parts ++ ["Skill gaps: " ++ String.intercalate ", " gaps] else profile_parts
    | none => profile_parts
  String.intercalate " " profile_parts

/-- The tool profile string built inside `_calculate_relevance_score`
(ai_agents.py line 330). -/
def tool_profile (tool : AITool) : String :=
  tool.name ++ " " ++ tool.description ++ " " ++
    String.intercalate " " tool.capabilities ++ " " ++
    String.intercalate " " tool.use_cases

/-- `_calculate_relevance_score` (ai_agents.py lines 321-353): embed the
tool profile (this call may raise, propagating to the caller), take the
cosine similarity with the shared user embedding, and combine with the
three heuristic scores under the fixed weights, capped above at 1.0. -/
def _calculate_relevance_score (c : Collab) (tool : AITool)
    (user_context : UserContext) (pattern_insights : PatternInsights)
    (user_embedding : List ℚ) : Except Unit ℚ := do
  let tool_embedding ← c.encode (tool_profile tool)
  let semantic_similarity := c.cosine user_embedding tool_embedding
  let skill_match := _calculate_skill_match tool user_context
  let domain_relevance := _calculate_domain_relevance tool user_context
  let tool_compatibility := _calculate_tool_compatibility tool user_context
  let relevance_score :=
    semantic_similarity * (3/10) + skill_match * (1/4) +
      domain_relevance * (1/4) + tool_compatibility * (1/5)
  pure (min relevance_score 1)

/-- The prompt built by `_generate_reasoning` (ai_agents.py lines 394-410);
its exact text is irrelevant to the claims (the text generator is opaque),
but it is kept as a deterministic function of the same inputs. -/
def reasoning_prompt (tool : AITool) (user_context : UserContext) (relevance_score : ℚ) : String :=
  "Explain why " ++ tool.name ++ " is recommended for this user in 2-3 sentences: " ++
    "Tool: " ++ tool.name ++ " Description: " ++ tool.description ++
    " Capabilities: " ++ String.intercalate ", " tool.capabilities ++
    " User Context: - Skill Level: " ++ user_context.skill_level ++
    " - Work Domain: " ++ user_context.work_domain ++
    " - Goals: " ++ String.intercalate ", " user_context.goals ++
    " - Current Tools: " ++ String.intercalate ", " user_context.tools_used ++
    " Relevance Score: " ++ toString relevance_score ++
    " Provide a clear, actionable explanation."

/-- The deterministic fallback reasoning string of `_generate_reasoning`
(ai_agents.py line 422). -/
def fallback_reasoning (user_context : UserContext) : String :=
  "Recommended based on relevance to your " ++ user_context.work_domain ++
    " work and " ++ user_context.skill_level ++ " skill level."

/-- `_generate_reasoning` (ai_agents.py lines 391-422): call the text
generator; on success return the stripped text, on any failure return the
fallback template.  Total: it never raises to its caller. -/
def _generate_reasoning (c : Collab) (tool : AITool) (user_context : UserContext)
    (relevance_score : ℚ) : String :=
  match c.generate (reasoning_prompt tool user_context relevance_score) with
  | .ok s => s.trim
  | .error _ => fallback_reasoning user_context

/-! ### The ranking orchestration (`generate_recommendations`) -/

/-- The Recommendation built for one tool in the loop body of
`generate_recommendations` (ai_agents.py lines 286-294), given the already
computed relevance score. -/
def build_recommendation (c : Collab) (tool : AITool) (user_context : UserContext)
    (relevance_score : ℚ) : Recommendation :=
  { tool_id := tool.id
    relevance_score := relevance_score
    confidence := min (relevance_score * (6/5)) 1
    reasoning := _generate_reasoning c tool user_context relevance_score
    implementation_complexity := _calculate_implementation_complexity tool user_context
    expected_impact := _predict_impact tool user_context
    learning_time_hours := _estimate_learning_time tool user_context }

/-- The per-tool loop of `generate_recommendations` (ai_agents.py lines
272-296).  The second component counts the invocations of the
text-generation collaborator (`_generate_reasoning` is called exactly once
per loop iteration, after the relevance computation of that iteration
succeeded).  A raising relevance computation aborts the loop, as the Python
exception does. -/
def score_loop (c : Collab) (user_context : UserContext)
    (pattern_insights : PatternInsights) (user_embedding : List ℚ) :
    List AITool → Except Unit (List Recommendation) × ℕ
  | [] => (.ok [], 0)
  | tool :: rest =>
    match _calculate_relevance_score c tool user_context pattern_insights user_embedding with
    | .error e => (.error e, 0)
    | .ok relevance_score =>
      let recommendation := build_recommendation c tool user_context relevance_score
      match score_loop c user_context pattern_insights user_embedding rest with
      | (.error e, n) => (.error e, n + 1)
      | (.ok recs, n) => (.ok (recommendation :: recs), n + 1)

/-- The comparison used by the final sort: Python
`sort(key=lambda x: x.relevance_score, reverse=True)` is a stable sort
putting `a` before `b` whenever `b.relevance_score ≤ a.relevance_score`. -/
def rec_desc (a b : Recommendation) : Bool :=
  decide (b.relevance_score ≤ a.relevance_score)

/-- `generate_recommendations` (ai_agents.py lines 258-304): embed the user
profile once, score every tool, stably sort descending by relevance and
keep the top 10.  Any exception inside the `try` block (user embedding or
any per-tool embedding) is caught at batch level and yields `[]`. -/
def generate_recommendations (c : Collab) (user_context : UserContext)
    (pattern_insights : PatternInsights) (available_tools : List AITool) :
    List Recommendation :=
  match c.encode (_create_user_profile user_context pattern_insights) with
  | .error _ => []
  | .ok user_embedding =>
    match (score_loop c user_context pattern_insights user_embedding available_tools).1 with
    | .error _ => []
    | .ok recommendations => (recommendations.mergeSort rec_desc).take 10

/-- Number of text-generation collaborator calls made during one
`generate_recommendations` request (one per `_generate_reasoning` call
site reached). -/
def text_gen_calls (c : Collab) (user_context : UserContext)
    (pattern_insights : PatternInsights) (available_tools : List AITool) : ℕ :=
  match c.encode (_create_user_profile user_context pattern_insights) with
  | .error _ => 0
  | .ok user_embedding =>
    (score_loop c user_context pattern_insights user_embedding available_tools).2

/-! ### Spec-side restatements (from the spec's words, for refinement claims)

These definitions are written from spec.md, not from the source, and are
compared with the source-derived definitions above.  The spec's decimal
constants are written as exact fractions (0.30 = 30/100 and so on). -/

/-- The weighted-sum formula of spec section 4.3:
relevance = 0.30*semantic + 0.25*skill + 0.25*domain + 0.20*compatibility,
then capped above via min with 1.0. -/
def relevance_spec_formula (semantic_similarity skill_match domain_relevance tool_compatibility : ℚ) : ℚ :=
  min ((30/100) * semantic_similarity + (25/100) * skill_match +
    (25/100) * domain_relevance + (20/100) * tool_compatibility) 1

/-- The spec's `level_rank` table (beginner 1, intermediate 2, advanced 3);
only meant to be applied to those three values. -/
def level_rank (s : String) : ℤ :=
  if s = "beginner" then 1 else if s = "intermediate" then 2 else 3

/-- The spec's skill-match table: 1.0 at diff = 1, 0.8 at diff = 0, 0.6 at
diff = -1, 0.3 otherwise, where diff = rank(tool) - rank(user). -/
def skill_match_spec (user_skill tool_difficulty : String) : ℚ :=
  let diff := level_rank tool_difficulty - level_rank user_skill
  if diff = 1 then 1
  else if diff = 0 then 4/5
  else if diff = -1 then 3/5
  else 3/10

/-- The spec's domain-relevance formula: lowercase whitespace tokens of
`work_domain`, count those occurring in the lowercased concatenation of the
tool category and joined use cases, divide by the token count capped at
1.0, and 0.5 when there are zero tokens. -/
def domain_relevance_spec (tool : AITool) (user_context : UserContext) : ℚ :=
  let domain_tokens := pySplit (pyLower user_context.work_domain)
  if domain_tokens = [] then 1/2
  else
    let hay := pyLower (tool.category ++ " " ++ String.intercalate " " tool.use_cases)
    let hits : ℕ := (domain_tokens.filter (fun t => occursIn t hay)).length
    min ((hits : ℚ) / (domain_tokens.length : ℚ)) 1

/-! ### Helper lemmas about the total-collaborator case -/

/-- The relevance value computed for one tool when both embedding calls
succeed. -/
def relevance_total (f : String → List ℚ) (sim : List ℚ → List ℚ → ℚ)
    (user_context : UserContext) (pattern_insights : PatternInsights) (tool : AITool) : ℚ :=
  min (sim (f (_create_user_profile user_context pattern_insights)) (f (tool_profile tool)) * (3/10)
    + _calculate_skill_match tool user_context * (1/4)
    + _calculate_domain_relevance tool user_context * (1/4)
    + _calculate_tool_compatibility tool user_context * (1/5)) 1

/-- The recommendation produced for one tool by a never-failing
collaborator. -/
def total_recommendation (f : String → List ℚ) (sim : List ℚ → List ℚ → ℚ)
    (g : String → String) (user_context : UserContext)
    (pattern_insights : PatternInsights) (tool : AITool) : Recommendation :=
  build_recommendation (Collab.ofTotal f sim g) tool user_context
    (relevance_total f sim user_context pattern_insights tool)

theorem relevance_score_ofTotal (f : String → List ℚ) (sim : List ℚ → List ℚ → ℚ)
    (g : String → String) (tool : AITool) (user_context : UserContext)
    (pattern_insights : PatternInsights) :
    _calculate_relevance_score (Collab.ofTotal f sim g) tool user_context pattern_insights
      (f (_create_user_profile user_context pattern_insights))
      = .ok (relevance_total f sim user_context pattern_insights tool) := rfl

theorem score_loop_ofTotal (f : String → List ℚ) (sim : List ℚ → List ℚ → ℚ)
    (g : String → String) (user_context : UserContext)
    (pattern_insights : PatternInsights) (tools : List AITool) :
    score_loop (Collab.ofTotal f sim g) user_context pattern_insights
      (f (_create_user_profile user_context pattern_insights)) tools
      = (.ok (tools.map (total_recommendation f sim g user_context pattern_insights)), tools.length) := by
  induction tools with
  | nil => rfl
  | cons tool rest ih =>
    simp only [score_loop, relevance_score_ofTotal, ih, List.map_cons, List.length_cons,
      total_recommendation]

theorem generate_recommendations_ofTotal (f : String → List ℚ) (sim : List ℚ → List ℚ → ℚ)
    (g : String → String) (user_context : UserContext)
    (pattern_insights : PatternInsights) (tools : List AITool) :
    generate_recommendations (Collab.ofTotal f sim g) user_context pattern_insights tools
      = ((tools.map (total_recommendation f sim g user_context pattern_insights)).mergeSort
          rec_desc).take 10 := by
  have h1 : (Collab.ofTotal f sim g).encode (_create_user_profile user_context pattern_insights)
      = .ok (f (_create_user_profile user_context pattern_insights)) := rfl
  simp only [generate_recommendations, h1, score_loop_ofTotal]

/-! ### Shared concrete sample inputs for witnesses and counterexamples -/

/-- An intermediate-skill user working on "dev". -/
def sample_user : UserContext :=
  { user_id := "u1", activity_patterns := [], skill_level := "intermediate",
    preferences := [], goals := [], work_domain := "dev", tools_used := [],
    productivity_score := 0 }

/-- An advanced-difficulty tool in the "dev" category. -/
def sample_tool_advanced : AITool :=
  { id := "t-adv", name := "Adv", category := "dev", description := "desc",
    capabilities := [], pricing_model := "free", difficulty_level := "advanced",
    integration_complexity := 3, user_rating := 4, use_cases := [] }

/-- An intermediate-difficulty tool in the "dev" category. -/
def sample_tool : AITool :=
  { id := "t-mid", name := "Mid", category := "dev", description := "desc",
    capabilities := [], pricing_model := "free", difficulty_level := "intermediate",
    integration_complexity := 2, user_rating := 4, use_cases := [] }

/-- A beginner-difficulty tool in the "ops" category. -/
def sample_tool_beginner : AITool :=
  { id := "t-beg", name := "Beg", category := "ops", description := "desc",
    capabilities := [], pricing_model := "free", difficulty_level := "beginner",
    integration_complexity := 1, user_rating := 3, use_cases := [] }

/-- A fourth sample tool. -/
def sample_tool_extra : AITool :=
  { id := "t-x", name := "Extra", category := "data", description := "desc",
    capabilities := [], pricing_model := "paid", difficulty_level := "advanced",
    integration_complexity := 5, user_rating := 5, use_cases := [] }

/-- A user whose skill level is outside the three enumerated values. -/
def expert_user : UserContext :=
  { sample_user with user_id := "u-e", skill_level := "expert" }

/-- A beginner user whose work domain shares nothing with the sample
tools. -/
def mismatch_user : UserContext :=
  { user_id := "u-m", activity_patterns := [], skill_level := "beginner",
    preferences := [], goals := [], work_domain := "zzz", tools_used := [],
    productivity_score := 0 }

/-- Empty pattern insights (no `skill_gaps` key). -/
def no_insights : PatternInsights := { skill_gaps := none }

/-- A collaborator whose external calls all fail. -/
def failing_collab : Collab :=
  { encode := fun _ => .error (), cosine := fun _ _ => 0, generate := fun _ => .error () }

/-- A collaborator whose external calls all succeed, with cosine similarity
constantly 0. -/
def zero_sim_collab : Collab :=
  Collab.ofTotal (fun _ => [0]) (fun _ _ => 0) (fun _ => "ok")

/-- A collaborator whose external calls all succeed, with cosine similarity
constantly -1 (the most dissimilar value cosine similarity can take). -/
def neg_sim_collab : Collab :=
  Collab.ofTotal (fun _ => [0]) (fun _ _ => -1) (fun _ => "ok")

/-! ### Claims -/

/-- C1: for every tool, user context and pattern insights, with the
embedding collaborator's outputs fixed (total functions `f` for `encode`
and `sim` for cosine similarity), the relevance score computed by
`_calculate_relevance_score` equals the spec formula
0.30*semantic + 0.25*skill + 0.25*domain + 0.20*compatibility capped via
min(·, 1.0), applied to the outputs of the similarity scorer and the three
heuristic scorers on the same inputs; and the four weights sum to 1. -/
theorem relevance_aggregation_matches_spec (f : String → List ℚ)
    (sim : List ℚ → List ℚ → ℚ) (g : String → String) (tool : AITool)
    (user_context : UserContext) (pattern_insights : PatternInsights) :
    _calculate_relevance_score (Collab.ofTotal f sim g) tool user_context pattern_insights
        (f (_create_user_profile user_context pattern_insights))
      = .ok (relevance_spec_formula
          (sim (f (_create_user_profile user_context pattern_insights)) (f (tool_profile tool)))
          (_calculate_skill_match tool user_context)
          (_calculate_domain_relevance tool user_context)
          (_calculate_tool_compatibility tool user_context))
    ∧ (30/100 : ℚ) + 25/100 + 25/100 + 20/100 = 1 := by
  refine ⟨?_, by norm_num⟩
  rw [relevance_score_ofTotal]
  congr 1
  unfold relevance_total relevance_spec_formula
  ring_nf

/-- C6: for skill and difficulty levels drawn from
beginner/intermediate/advanced, `_calculate_skill_match` agrees with the
spec's rank-difference table. -/
theorem skill_match_matches_spec (tool : AITool) (user_context : UserContext)
    (hu : user_context.skill_level ∈ (["beginner", "intermediate", "advanced"] : List String))
    (hd : tool.difficulty_level ∈ (["beginner", "intermediate", "advanced"] : List String)) :
    _calculate_skill_match tool user_context
      = skill_match_spec user_context.skill_level tool.difficulty_level := by
  simp only [List.mem_cons, List.mem_singleton, List.not_mem_nil, or_false] at hu hd
  unfold _calculate_skill_match skill_match_spec skill_levels_get level_rank
  rcases hu with hu | hu | hu <;> rcases hd with hd | hd | hd <;>
    rw [hu, hd] <;> with_unfolding_all decide

/-- Witness for C6 at the spec's own concrete instance: intermediate user,
advanced tool gives skill match 1. -/
theorem skill_match_matches_spec_witness :
    sample_user.skill_level ∈ (["beginner", "intermediate", "advanced"] : List String)
    ∧ sample_tool_advanced.difficulty_level ∈ (["beginner", "intermediate", "advanced"] : List String)
    ∧ _calculate_skill_match sample_tool_advanced sample_user
        = skill_match_spec sample_user.skill_level sample_tool_advanced.difficulty_level :=
  ⟨by decide, by decide,
    skill_match_matches_spec sample_tool_advanced sample_user (by decide) (by decide)⟩

/-- C7: the domain-relevance scorer agrees with the spec formula on every
input, including the zero-token neutral default of 0.5 (token-count zero
never divides; the guard returns 0.5 first). -/
theorem domain_relevance_matches_spec (tool : AITool) (user_context : UserContext) :
    _calculate_domain_relevance tool user_context = domain_relevance_spec tool user_context := by
  unfold _calculate_domain_relevance domain_relevance_spec
  by_cases h : pySplit (pyLower user_context.work_domain) = [] <;> simp [h]

/-- C8: whenever the text-generation call fails, `_generate_reasoning`
returns exactly the fallback template with `work_domain` and `skill_level`
interpolated, and that string is never empty.  (`_generate_reasoning` is a
total function into `String`: it never propagates the failure.) -/
theorem reasoning_fallback_on_failure (c : Collab) (tool : AITool)
    (user_context : UserContext) (relevance_score : ℚ)
    (h : c.generate (reasoning_prompt tool user_context relevance_score) = .error ()) :
    _generate_reasoning c tool user_context relevance_score
      = "Recommended based on relevance to your " ++ user_context.work_domain
          ++ " work and " ++ user_context.skill_level ++ " skill level."
    ∧ _generate_reasoning c tool user_context relevance_score ≠ "" := by
  have hval : _generate_reasoning c tool user_context relevance_score
      = "Recommended based on relevance to your " ++ user_context.work_domain
          ++ " work and " ++ user_context.skill_level ++ " skill level." := by
    unfold _generate_reasoning fallback_reasoning
    rw [h]
  refine ⟨hval, ?_⟩
  rw [hval]
  intro hempty
  have hlen := congrArg String.length hempty
  simp only [String.length_append] at hlen
  have e1 : ("Recommended based on relevance to your " : String).length = 39 := by decide
  have e2 : (" work and " : String).length = 10 := by decide
  have e3 : (" skill level." : String).length = 13 := by decide
  have e0 : ("" : String).length = 0 := by decide
  omega

/-- Witness for C8: with the always-failing collaborator, the reasoning for
the sample tool is exactly the interpolated fallback and is non-empty. -/
theorem reasoning_fallback_on_failure_witness :
    failing_collab.generate (reasoning_prompt sample_tool sample_user 0) = .error ()
    ∧ _generate_reasoning failing_collab sample_tool sample_user 0
        = "Recommended based on relevance to your " ++ sample_user.work_domain
            ++ " work and " ++ sample_user.skill_level ++ " skill level."
    ∧ _generate_reasoning failing_collab sample_tool sample_user 0 ≠ "" :=
  ⟨rfl, (reasoning_fallback_on_failure failing_collab sample_tool sample_user 0 rfl).1,
    (reasoning_fallback_on_failure failing_collab sample_tool sample_user 0 rfl).2⟩

/-! ### Bounds of the individual scorers -/

theorem skill_match_lower_bound (tool : AITool) (user_context : UserContext) :
    3/10 ≤ _calculate_skill_match tool user_context := by
  unfold _calculate_skill_match
  dsimp only
  split_ifs <;> norm_num

theorem skill_match_upper_bound (tool : AITool) (user_context : UserContext) :
    _calculate_skill_match tool user_context ≤ 1 := by
  unfold _calculate_skill_match
  dsimp only
  split_ifs <;> norm_num

theorem domain_relevance_nonneg (tool : AITool) (user_context : UserContext) :
    0 ≤ _calculate_domain_relevance tool user_context := by
  unfold _calculate_domain_relevance
  dsimp only
  split_ifs with h
  · exact le_min (div_nonneg (Nat.cast_nonneg _) (Nat.cast_nonneg _)) (by norm_num)
  · norm_num

theorem domain_relevance_upper_bound (tool : AITool) (user_context : UserContext) :
    _calculate_domain_relevance tool user_context ≤ 1 := by
  unfold _calculate_domain_relevance
  dsimp only
  split_ifs with h
  · exact min_le_right _ _
  · norm_num

theorem base_time_nonneg (s : String) : 0 ≤ base_time_get s := by
  unfold base_time_get
  split_ifs <;> norm_num

theorem difficulty_multiplier_nonneg (s : String) : 0 ≤ difficulty_multiplier_get s := by
  unfold difficulty_multiplier_get
  split_ifs <;> norm_num

/-! ### Elimination lemmas for membership in the ranked output -/

theorem relevance_ok_elim {c : Collab} {tool : AITool} {user_context : UserContext}
    {pattern_insights : PatternInsights} {user_embedding : List ℚ} {r : ℚ}
    (h : _calculate_relevance_score c tool user_context pattern_insights user_embedding = .ok r) :
    ∃ tool_embedding, c.encode (tool_profile tool) = .ok tool_embedding ∧
      r = min (c.cosine user_embedding tool_embedding * (3/10)
        + _calculate_skill_match tool user_context * (1/4)
        + _calculate_domain_relevance tool user_context * (1/4)
        + _calculate_tool_compatibility tool user_context * (1/5)) 1 := by
  unfold _calculate_relevance_score at h
  cases henc : c.encode (tool_profile tool) with
  | error e => rw [henc] at h; simp [bind, Except.bind] at h
  | ok te =>
    rw [henc] at h
    simp only [bind, Except.bind, pure, Except.pure, Except.ok.injEq] at h
    exact ⟨te, rfl, h.symm⟩

theorem relevance_error_of_encode_error {c : Collab} {tool : AITool}
    {user_context : UserContext} {pattern_insights : PatternInsights}
    {user_embedding : List ℚ}
    (h : c.encode (tool_profile tool) = .error ()) :
    _calculate_relevance_score c tool user_context pattern_insights user_embedding
      = .error () := by
  unfold _calculate_relevance_score
  rw [h]
  rfl

theorem score_loop_mem {c : Collab} {user_context : UserContext}
    {pattern_insights : PatternInsights} {user_embedding : List ℚ} :
    ∀ {tools : List AITool} {recs : List Recommendation},
      (score_loop c user_context pattern_insights user_embedding tools).1 = .ok recs →
      ∀ {rec : Recommendation}, rec ∈ recs →
        ∃ tool ∈ tools, ∃ r,
          _calculate_relevance_score c tool user_context pattern_insights user_embedding = .ok r
          ∧ rec = build_recommendation c tool user_context r
  | [], recs, h, rec, hmem => by
    simp only [score_loop, Except.ok.injEq] at h
    subst h
    simp at hmem
  | tool :: rest, recs, h, rec, hmem => by
    unfold score_loop at h
    cases hrel : _calculate_relevance_score c tool user_context pattern_insights user_embedding with
    | error e => rw [hrel] at h; simp at h
    | ok r =>
      rw [hrel] at h
      cases hrest : score_loop c user_context pattern_insights user_embedding rest with
      | mk fst n =>
        rw [hrest] at h
        cases fst with
        | error e => simp at h
        | ok recs' =>
          simp only [Except.ok.injEq] at h
          subst h
          rcases List.mem_cons.mp hmem with hrec | hrec
          · exact ⟨tool, List.mem_cons_self _ _, r, hrel, hrec⟩
          · obtain ⟨tool', hmem', r', hrel', hrec'⟩ :=
              score_loop_mem (by rw [hrest]) hrec
            exact ⟨tool', List.mem_cons_of_mem _ hmem', r', hrel', hrec'⟩

theorem mem_generate_recommendations {c : Collab} {user_context : UserContext}
    {pattern_insights : PatternInsights} {tools : List AITool} {rec : Recommendation}
    (h : rec ∈ generate_recommendations c user_context pattern_insights tools) :
    ∃ tool ∈ tools, ∃ r,
      rec = build_recommendation c tool user_context r
      ∧ ∃ user_embedding tool_embedding,
          c.encode (_create_user_profile user_context pattern_insights) = .ok user_embedding
          ∧ c.encode (tool_profile tool) = .ok tool_embedding
          ∧ r = min (c.cosine user_embedding tool_embedding * (3/10)
              + _calculate_skill_match tool user_context * (1/4)
              + _calculate_domain_relevance tool user_context * (1/4)
              + _calculate_tool_compatibility tool user_context * (1/5)) 1 := by
  unfold generate_recommendations at h
  split at h
  · simp at h
  · rename_i ue hu
    split at h
    · simp at h
    · rename_i recs hsl
      have hrec : rec ∈ recs := by
        have h1 : rec ∈ recs.mergeSort rec_desc := List.take_subset 10 _ h
        exact List.mem_mergeSort.mp h1
      obtain ⟨tool, hmem, r, hrel, hbuild⟩ := score_loop_mem hsl hrec
      obtain ⟨te, henc, hr⟩ := relevance_ok_elim hrel
      exact ⟨tool, hmem, r, hbuild, ue, te, hu, henc, hr⟩

/-- C2, amended: for every collaborator whose cosine similarity stays in
[-1, 1], every recommendation in the ranked output satisfies:
relevance_score ≤ 1 and relevance_score ≥ -17/200 (the code has no lower
clamp, so a negative similarity can push relevance below 0);
confidence = min(relevance_score * 1.2, 1.0) and confidence ≤ 1;
implementation_complexity is in [1,5]; learning_time_hours ≥ 0; and
whenever relevance_score ≥ 0 the claim's remaining bounds hold
(confidence ≥ 0 and confidence ≥ relevance_score). -/
theorem recommendation_bounds (c : Collab) (user_context : UserContext)
    (pattern_insights : PatternInsights) (tools : List AITool)
    (hsim : ∀ u v, -1 ≤ c.cosine u v ∧ c.cosine u v ≤ 1) :
    ∀ rec ∈ generate_recommendations c user_context pattern_insights tools,
      rec.relevance_score ≤ 1
      ∧ -(17/200) ≤ rec.relevance_score
      ∧ rec.confidence = min (rec.relevance_score * (6/5)) 1
      ∧ rec.confidence ≤ 1
      ∧ 1 ≤ rec.implementation_complexity
      ∧ rec.implementation_complexity ≤ 5
      ∧ 0 ≤ rec.learning_time_hours
      ∧ (0 ≤ rec.relevance_score →
          0 ≤ rec.confidence ∧ rec.relevance_score ≤ rec.confidence) := by
  intro rec hmem
  obtain ⟨tool, -, r, hbuild, ue, te, -, -, hr⟩ := mem_generate_recommendations hmem
  subst hbuild
  simp only [build_recommendation]
  have hsm := skill_match_lower_bound tool user_context
  have hdr := domain_relevance_nonneg tool user_context
  have hcos := hsim ue te
  have hcompat : _calculate_tool_compatibility tool user_context = 7/10 := rfl
  have hrle : r ≤ 1 := hr ▸ min_le_right _ _
  have hrlb : -(17/200) ≤ r := by
    rw [hr]
    refine le_min ?_ (by norm_num)
    have h1 : (-1 : ℚ) * (3/10) ≤ c.cosine ue te * (3/10) :=
      mul_le_mul_of_nonneg_right hcos.1 (by norm_num)
    have h2 : (3/10 : ℚ) * (1/4) ≤ _calculate_skill_match tool user_context * (1/4) :=
      mul_le_mul_of_nonneg_right hsm (by norm_num)
    have h3 : (0 : ℚ) ≤ _calculate_domain_relevance tool user_context * (1/4) :=
      mul_nonneg hdr (by norm_num)
    rw [hcompat]
    linarith
  refine ⟨hrle, hrlb, trivial, min_le_right _ _, le_max_left _ _,
    max_le (by norm_num) (le_trans (min_le_left _ _) (by norm_num)), ?_, ?_⟩
  · unfold _estimate_learning_time
    exact Int.floor_nonneg.mpr
      (mul_nonneg (base_time_nonneg _) (difficulty_multiplier_nonneg _))
  · intro h0
    constructor
    · exact le_min (by nlinarith) (by norm_num)
    · exact le_min (by nlinarith) hrle

/-- Witness for C2 at a concrete never-failing collaborator with zero
cosine similarity. -/
theorem recommendation_bounds_witness :
    (∀ u v, -1 ≤ zero_sim_collab.cosine u v ∧ zero_sim_collab.cosine u v ≤ 1)
    ∧ ∀ rec ∈ generate_recommendations zero_sim_collab sample_user no_insights [sample_tool],
        rec.relevance_score ≤ 1
        ∧ -(17/200) ≤ rec.relevance_score
        ∧ rec.confidence = min (rec.relevance_score * (6/5)) 1
        ∧ rec.confidence ≤ 1
        ∧ 1 ≤ rec.implementation_complexity
        ∧ rec.implementation_complexity ≤ 5
        ∧ 0 ≤ rec.learning_time_hours
        ∧ (0 ≤ rec.relevance_score →
            0 ≤ rec.confidence ∧ rec.relevance_score ≤ rec.confidence) :=
  ⟨fun u v => ⟨by norm_num [zero_sim_collab, Collab.ofTotal], by norm_num [zero_sim_collab, Collab.ofTotal]⟩,
    recommendation_bounds zero_sim_collab sample_user no_insights [sample_tool]
      (fun u v => ⟨by norm_num [zero_sim_collab, Collab.ofTotal], by norm_num [zero_sim_collab, Collab.ofTotal]⟩)⟩

/-- The recommendation produced for `sample_tool_advanced` when the
cosine similarity is -1 and the user is a beginner in an unrelated
domain: skill match 3/10, domain relevance 0, compatibility 7/10, so the
weighted sum is -17/200 < 0. -/
def negative_relevance_rec : Recommendation :=
  { tool_id := "t-adv", relevance_score := -(17/200), confidence := -(51/500),
    reasoning := "ok", implementation_complexity := 4,
    expected_impact := "Medium", learning_time_hours := 16 }

set_option maxRecDepth 100000 in
/-- Counterexample to C2 as stated: with a legitimate cosine output of -1,
the ranked output contains a recommendation whose relevance_score is
negative (outside [0,1]) and whose confidence is below its
relevance_score. -/
theorem recommendation_bounds_counterexample :
    negative_relevance_rec
        ∈ generate_recommendations neg_sim_collab mismatch_user no_insights [sample_tool_advanced]
    ∧ negative_relevance_rec.relevance_score < 0
    ∧ negative_relevance_rec.confidence < negative_relevance_rec.relevance_score := by
  refine ⟨?_, by norm_num [negative_relevance_rec], by norm_num [negative_relevance_rec]⟩
  with_unfolding_all decide

/-! ### The comparison used by the final sort is transitive and total -/

theorem rec_desc_trans : ∀ (a b c : Recommendation), rec_desc a b → rec_desc b c → rec_desc a c := by
  intro a b c hab hbc
  simp only [rec_desc, decide_eq_true_eq] at *
  exact le_trans hbc hab

theorem rec_desc_total : ∀ (a b : Recommendation), rec_desc a b || rec_desc b a := by
  intro a b
  simp only [rec_desc, Bool.or_eq_true, decide_eq_true_eq]
  exact le_total b.relevance_score a.relevance_score

/-- C3: with the collaborator outputs fixed (total functions), the ranked
output has length exactly min(10, N); it is ordered by relevance_score
descending (`result.get j ≤ result.get i` for i < j); the sort is stable:
two scored recommendations with equal relevance_score that appear in
catalog order in the scored list still appear in that order in the sorted
list, of which the returned list is the 10-element prefix. -/
theorem ranking_sorted_truncated_stable (f : String → List ℚ)
    (sim : List ℚ → List ℚ → ℚ) (g : String → String)
    (user_context : UserContext) (pattern_insights : PatternInsights)
    (tools : List AITool) :
    (generate_recommendations (Collab.ofTotal f sim g) user_context pattern_insights tools).length
        = min 10 tools.length
    ∧ (∀ i j (hi : i < (generate_recommendations (Collab.ofTotal f sim g) user_context pattern_insights tools).length)
        (hj : j < (generate_recommendations (Collab.ofTotal f sim g) user_context pattern_insights tools).length),
        i < j →
        ((generate_recommendations (Collab.ofTotal f sim g) user_context pattern_insights tools).get ⟨j, hj⟩).relevance_score
          ≤ ((generate_recommendations (Collab.ofTotal f sim g) user_context pattern_insights tools).get ⟨i, hi⟩).relevance_score)
    ∧ (∀ a b : Recommendation,
        List.Sublist [a, b] (tools.map (total_recommendation f sim g user_context pattern_insights)) →
        a.relevance_score = b.relevance_score →
        List.Sublist [a, b] ((tools.map (total_recommendation f sim g user_context pattern_insights)).mergeSort rec_desc))
    ∧ generate_recommendations (Collab.ofTotal f sim g) user_context pattern_insights tools
        = ((tools.map (total_recommendation f sim g user_context pattern_insights)).mergeSort rec_desc).take 10 := by
  have hg := generate_recommendations_ofTotal f sim g user_context pattern_insights tools
  refine ⟨?_, ?_, ?_, hg⟩
  · rw [hg]
    simp [List.length_take]
  · intro i j hi hj hij
    have hsorted : ((tools.map (total_recommendation f sim g user_context pattern_insights)).mergeSort
        rec_desc).Pairwise (fun a b => rec_desc a b) :=
      List.sorted_mergeSort rec_desc_trans rec_desc_total _
    have htake : (generate_recommendations (Collab.ofTotal f sim g) user_context pattern_insights
        tools).Pairwise (fun a b => rec_desc a b) := by
      rw [hg]
      exact hsorted.sublist (List.take_sublist _ _)
    have := (List.pairwise_iff_getElem.mp htake) i j hi hj hij
    simpa [rec_desc] using this
  · intro a b hsub heq
    refine List.sublist_mergeSort rec_desc_trans rec_desc_total ?_ hsub
    simp [List.pairwise_cons, rec_desc, heq]

/-- Witness for C3: the length part at a concrete two-tool catalog. -/
theorem ranking_sorted_truncated_stable_witness :
    (generate_recommendations zero_sim_collab sample_user no_insights
        [sample_tool, sample_tool_advanced]).length
      = min 10 ([sample_tool, sample_tool_advanced] : List AITool).length :=
  (ranking_sorted_truncated_stable (fun _ => [0]) (fun _ _ => 0) (fun _ => "ok")
    sample_user no_insights [sample_tool, sample_tool_advanced]).1

/-! ### C4: what actually happens on embedding failure -/

theorem score_loop_error_of_encode_error {c : Collab} {user_context : UserContext}
    {pattern_insights : PatternInsights} {user_embedding : List ℚ} :
    ∀ {tools : List AITool} {tool : AITool}, tool ∈ tools →
      c.encode (tool_profile tool) = .error () →
      (score_loop c user_context pattern_insights user_embedding tools).1 = .error ()
  | [], _, hmem, _ => absurd hmem (List.not_mem_nil _)
  | t :: rest, tool, hmem, henc => by
    unfold score_loop
    cases hrel : _calculate_relevance_score c t user_context pattern_insights user_embedding with
    | error e => simp
    | ok r =>
      have ht : tool ≠ t := by
        intro hEq
        subst hEq
        rw [relevance_error_of_encode_error henc] at hrel
        cases hrel
      have hmem' : tool ∈ rest := by
        rcases List.mem_cons.mp hmem with h | h
        · exact absurd h ht
        · exact h
      have ih := @score_loop_error_of_encode_error c user_context pattern_insights
        user_embedding rest tool hmem' henc
      cases hrest : score_loop c user_context pattern_insights user_embedding rest with
      | mk fst n =>
        rw [hrest] at ih
        dsimp at ih
        subst ih
        simp

/-- C4, amended: embedding failures are NOT isolated and do NOT degrade to
semantic-term-0 scoring.  Any embedding failure — the shared user
embedding, or the embedding of any single candidate tool — is caught at
batch level and the whole call returns the empty list (the caller still
receives a list, but no tool is scored or ranked). -/
theorem embedding_failure_empties_batch (c : Collab) (user_context : UserContext)
    (pattern_insights : PatternInsights) (tools : List AITool)
    (h : c.encode (_create_user_profile user_context pattern_insights) = .error ()
      ∨ ∃ tool ∈ tools, c.encode (tool_profile tool) = .error ()) :
    generate_recommendations c user_context pattern_insights tools = [] := by
  unfold generate_recommendations
  rcases h with h | ⟨tool, hmem, henc⟩
  · rw [h]
  · cases hu : c.encode (_create_user_profile user_context pattern_insights) with
    | error e => rfl
    | ok ue =>
      have herr : (score_loop c user_context pattern_insights ue tools).1 = .error () :=
        @score_loop_error_of_encode_error c user_context pattern_insights ue tools tool hmem henc
      dsimp only
      rw [herr]

/-- A collaborator whose embedding call fails exactly on `sample_tool`'s
tool profile and succeeds on every other input. -/
def one_tool_failing_collab : Collab :=
  { encode := fun s => if s = tool_profile sample_tool then .error () else .ok [0],
    cosine := fun _ _ => 0, generate := fun _ => .ok "ok" }

/-- A collaborator whose embedding call fails exactly on the shared user
profile of `sample_user` and succeeds on every other input. -/
def user_embedding_failing_collab : Collab :=
  { encode := fun s => if s = _create_user_profile sample_user no_insights then .error () else .ok [0],
    cosine := fun _ _ => 0, generate := fun _ => .ok "ok" }

set_option maxRecDepth 1000000 in
/-- Counterexample to C4 as stated: with only `sample_tool`'s embedding
failing, the second tool is NOT still scored and ranked — the whole batch
comes back empty (the same two-tool batch yields 2 recommendations when no
call fails); and when the shared user embedding fails, the batch is not
scored with semantic term 0 but likewise comes back empty. -/
theorem per_tool_isolation_counterexample :
    one_tool_failing_collab.encode (tool_profile sample_tool) = .error ()
    ∧ one_tool_failing_collab.encode (tool_profile sample_tool_advanced) = .ok [0]
    ∧ (generate_recommendations zero_sim_collab sample_user no_insights
        [sample_tool, sample_tool_advanced]).length = 2
    ∧ generate_recommendations one_tool_failing_collab sample_user no_insights
        [sample_tool, sample_tool_advanced] = []
    ∧ user_embedding_failing_collab.encode (_create_user_profile sample_user no_insights) = .error ()
    ∧ generate_recommendations user_embedding_failing_collab sample_user no_insights
        [sample_tool, sample_tool_advanced] = [] := by
  with_unfolding_all decide

/-- Witness for the amended C4 theorem at the one-failing-tool
collaborator. -/
theorem embedding_failure_empties_batch_witness :
    (one_tool_failing_collab.encode (_create_user_profile sample_user no_insights) = .error ()
      ∨ ∃ tool ∈ ([sample_tool, sample_tool_advanced] : List AITool),
          one_tool_failing_collab.encode (tool_profile tool) = .error ())
    ∧ generate_recommendations one_tool_failing_collab sample_user no_insights
        [sample_tool, sample_tool_advanced] = [] :=
  ⟨Or.inr ⟨sample_tool, by simp, by with_unfolding_all decide⟩,
    embedding_failure_empties_batch one_tool_failing_collab sample_user no_insights
      [sample_tool, sample_tool_advanced]
      (Or.inr ⟨sample_tool, by simp, by with_unfolding_all decide⟩)⟩

/-! ### C5: how often the text-generation collaborator is invoked -/

/-- C5, amended: the text-generation collaborator is invoked once per
candidate tool — `_generate_reasoning` is called inside the scoring loop
for every tool, before sorting and truncation — so a batch of N candidates
makes exactly N text-generation calls, not at most 3. -/
theorem text_gen_called_once_per_tool (f : String → List ℚ)
    (sim : List ℚ → List ℚ → ℚ) (g : String → String)
    (user_context : UserContext) (pattern_insights : PatternInsights)
    (tools : List AITool) :
    text_gen_calls (Collab.ofTotal f sim g) user_context pattern_insights tools
      = tools.length := by
  have h1 : (Collab.ofTotal f sim g).encode (_create_user_profile user_context pattern_insights)
      = .ok (f (_create_user_profile user_context pattern_insights)) := rfl
  simp only [text_gen_calls, h1, score_loop_ofTotal]

set_option maxRecDepth 1000000 in
/-- Counterexample to C5 as stated: a request with 4 candidate tools makes
4 text-generation calls, exceeding the claimed bound of 3. -/
theorem explanation_calls_counterexample :
    text_gen_calls zero_sim_collab sample_user no_insights
        [sample_tool, sample_tool_advanced, sample_tool_beginner, sample_tool_extra] = 4
    ∧ ¬ (text_gen_calls zero_sim_collab sample_user no_insights
        [sample_tool, sample_tool_advanced, sample_tool_beginner, sample_tool_extra] ≤ 3) := by
  with_unfolding_all decide

/-! ### C9: coercion of unknown skill levels -/

/-- Counterexample to C9 as stated: for the out-of-range skill level
"expert" the code's dict defaults are NOT those of "beginner": the
complexity adjustment is 0 (giving 2, where beginner gives 3) and the
learning-time base is 6 hours (giving 9, where beginner's 8-hour base
gives 12). -/
theorem unknown_skill_coercion_counterexample :
    _calculate_implementation_complexity sample_tool expert_user = 2
    ∧ _calculate_implementation_complexity sample_tool { expert_user with skill_level := "beginner" } = 3
    ∧ _estimate_learning_time sample_tool expert_user = 9
    ∧ _estimate_learning_time sample_tool { expert_user with skill_level := "beginner" } = 12 := by
  with_unfolding_all decide

/-- C9, amended: an unknown skill level is coerced independently by each
consumer, not uniformly to beginner: the skill-match scorer falls back to
rank 1 (beginner's rank), the implementation-complexity adjustment falls
back to 0 (intermediate's adjustment), and the learning-time base falls
back to 6 hours (a value that is neither beginner's 8 nor
intermediate's 4).  Every consumer still returns a value, so ranking stays
total. -/
theorem unknown_skill_defaults (tool : AITool) (user_context : UserContext)
    (h : user_context.skill_level ∉ (["beginner", "intermediate", "advanced"] : List String)) :
    _calculate_skill_match tool user_context
        = _calculate_skill_match tool { user_context with skill_level := "beginner" }
    ∧ _calculate_implementation_complexity tool user_context
        = _calculate_implementation_complexity tool { user_context with skill_level := "intermediate" }
    ∧ _estimate_learning_time tool user_context
        = ⌊(6 : ℚ) * difficulty_multiplier_get tool.difficulty_level⌋ := by
  obtain ⟨h1, h2, h3⟩ :
      user_context.skill_level ≠ "beginner" ∧ user_context.skill_level ≠ "intermediate"
        ∧ user_context.skill_level ≠ "advanced" := by
    simpa [not_or] using h
  refine ⟨?_, ?_, ?_⟩
  · simp [_calculate_skill_match, skill_levels_get, h1, h2, h3]
  · simp [_calculate_implementation_complexity, skill_adjustment_get, h1, h2, h3]
  · simp [_estimate_learning_time, base_time_get, h1, h2, h3]

/-- Witness for the amended C9 theorem at the "expert" user. -/
theorem unknown_skill_defaults_witness :
    expert_user.skill_level ∉ (["beginner", "intermediate", "advanced"] : List String)
    ∧ (_calculate_skill_match sample_tool expert_user
          = _calculate_skill_match sample_tool { expert_user with skill_level := "beginner" }
      ∧ _calculate_implementation_complexity sample_tool expert_user
          = _calculate_implementation_complexity sample_tool { expert_user with skill_level := "intermediate" }
      ∧ _estimate_learning_time sample_tool expert_user
          = ⌊(6 : ℚ) * difficulty_multiplier_get sample_tool.difficulty_level⌋) :=
  ⟨by decide, unknown_skill_defaults sample_tool expert_user (by decide)⟩

/-! ### C10: coercion of unknown tool difficulty levels -/

/-- A tool whose difficulty level is outside the three enumerated
values. -/
def odd_difficulty_tool : AITool :=
  { sample_tool with id := "t-odd", difficulty_level := "expert" }

/-- C10: a tool with an out-of-range difficulty level is silently scored as
if its difficulty were "intermediate": the skill-match scorer uses rank 2
(the dict default) and the learning-time estimate uses the 1.5 multiplier
(the dict default), and both functions still return values. -/
theorem unknown_difficulty_defaults (tool : AITool) (user_context : UserContext)
    (h : tool.difficulty_level ∉ (["beginner", "intermediate", "advanced"] : List String)) :
    _calculate_skill_match tool user_context
        = _calculate_skill_match { tool with difficulty_level := "intermediate" } user_context
    ∧ _estimate_learning_time tool user_context
        = _estimate_learning_time { tool with difficulty_level := "intermediate" } user_context := by
  obtain ⟨h1, h2, h3⟩ :
      tool.difficulty_level ≠ "beginner" ∧ tool.difficulty_level ≠ "intermediate"
        ∧ tool.difficulty_level ≠ "advanced" := by
    simpa [not_or] using h
  refine ⟨?_, ?_⟩
  · simp [_calculate_skill_match, skill_levels_get, h1, h2, h3]
  · simp [_estimate_learning_time, difficulty_multiplier_get, h1, h2, h3]

/-- Witness for C10 at the "expert"-difficulty tool. -/
theorem unknown_difficulty_defaults_witness :
    odd_difficulty_tool.difficulty_level ∉ (["beginner", "intermediate", "advanced"] : List String)
    ∧ (_calculate_skill_match odd_difficulty_tool sample_user
          = _calculate_skill_match { odd_difficulty_tool with difficulty_level := "intermediate" } sample_user
      ∧ _estimate_learning_time odd_difficulty_tool sample_user
          = _estimate_learning_time { odd_difficulty_tool with difficulty_level := "intermediate" } sample_user) :=
  ⟨by decide, unknown_difficulty_defaults odd_difficulty_tool sample_user (by decide)⟩

end Careerate
